import Mathlib

/-!
Shallow embedding of the repository source file `create_assignment.py` and
verification of the claims about it.

The script is a thin sequential wrapper around a container-management client:
it extracts a zip into a build context, writes a Dockerfile, builds an image,
creates and starts a container, copies a submission file into the container
as a one-member tar archive, executes a fixed shell command, and parses a
JSON result file.

Modelling conventions:
 - Every library call whose outcome depends on the outside world (zip
   extraction, docker image build, container create/start/get, file copy,
   put_archive, exec_run, path existence) is resolved by an explicit
   environment record `Env`, one field per call site.
 - Each embedded function returns the list of external events it performs
   (in order) together with an `Except PyExc` outcome; an `Except.error`
   models a Python exception propagating out of the function, mirroring the
   absence of try/except blocks inside the functions: only `main` has a
   generic handler.
 - Byte strings (subprocess output, file contents) are modelled as `String`.
 - `json.loads` is modelled by a small recursive-descent JSON reader over the
   grammar actually relevant here (null, booleans, integer and simple decimal
   numbers, strings without escape sequences, arrays, objects); failure
   models the `json.JSONDecodeError` exception.
-/

namespace CreateAssignment

/-- JSON values as produced by the model of `json.loads`. Number lexemes are
kept verbatim. -/
inductive Json where
  | null : Json
  | bool (b : Bool) : Json
  | num (lexeme : String) : Json
  | str (s : String) : Json
  | arr (elems : List Json) : Json
  | obj (fields : List (String × Json)) : Json

/-- Drop leading JSON whitespace. -/
def skipWs : List Char → List Char
  | [] => []
  | c :: cs => if c = ' ' ∨ c = '\n' ∨ c = '\t' ∨ c = '\r' then skipWs cs else c :: cs

/-- Read the characters of a JSON string literal after its opening quote, up
to the closing quote (escape sequences are not modelled). -/
def spanString : List Char → Option (List Char × List Char)
  | [] => none
  | c :: cs =>
    if c = '"' then some ([], cs)
    else
      match spanString cs with
      | some (acc, rest) => some (c :: acc, rest)
      | none => none

/-- Longest digit run at the front of the input. -/
def spanDigits : List Char → List Char × List Char
  | [] => ([], [])
  | c :: cs =>
    if c.isDigit then
      let (d, r) := spanDigits cs
      (c :: d, r)
    else ([], c :: cs)

/-- Read a number after an optional leading minus sign already removed:
digits, optionally followed by a dot and digits. -/
def readNumber (neg : Bool) (input : List Char) : Option (Json × List Char) :=
  let (ds, r) := spanDigits input
  if ds = [] then none
  else
    match r with
    | '.' :: r2 =>
      let (fs, r3) := spanDigits r2
      if fs = [] then none
      else some (.num (String.mk ((if neg then ['-'] else []) ++ ds ++ ['.'] ++ fs)), r3)
    | _ => some (.num (String.mk ((if neg then ['-'] else []) ++ ds)), r)

mutual

/-- Parse one JSON value (fuel-bounded recursive descent). -/
def parseVal : Nat → List Char → Option (Json × List Char)
  | 0, _ => none
  | fuel + 1, input =>
    match skipWs input with
    | [] => none
    | c :: cs =>
      if c = 'n' then
        match cs with
        | 'u' :: 'l' :: 'l' :: r => some (.null, r)
        | _ => none
      else if c = 't' then
        match cs with
        | 'r' :: 'u' :: 'e' :: r => some (.bool true, r)
        | _ => none
      else if c = 'f' then
        match cs with
        | 'a' :: 'l' :: 's' :: 'e' :: r => some (.bool false, r)
        | _ => none
      else if c = '"' then
        match spanString cs with
        | some (acc, r) => some (.str (String.mk acc), r)
        | none => none
      else if c = '[' then
        match skipWs cs with
        | ']' :: r => some (.arr [], r)
        | s2 =>
          match parseElems fuel s2 with
          | some (xs, r) => some (.arr xs, r)
          | none => none
      else if c = '\x7b' then
        match skipWs cs with
        | '\x7d' :: r => some (.obj [], r)
        | s2 =>
          match parseFields fuel s2 with
          | some (fs, r) => some (.obj fs, r)
          | none => none
      else if c = '-' then
        readNumber true cs
      else if c.isDigit then
        readNumber false (c :: cs)
      else none

/-- Parse the comma-separated elements of a nonempty JSON array, consuming the
closing bracket. -/
def parseElems : Nat → List Char → Option (List Json × List Char)
  | 0, _ => none
  | fuel + 1, input =>
    match parseVal fuel input with
    | none => none
    | some (v, r) =>
      match skipWs r with
      | ',' :: r2 =>
        match parseElems fuel r2 with
        | some (vs, r3) => some (v :: vs, r3)
        | none => none
      | ']' :: r2 => some ([v], r2)
      | _ => none

/-- Parse the comma-separated fields of a nonempty JSON object, consuming the
closing brace. -/
def parseFields : Nat → List Char → Option (List (String × Json) × List Char)
  | 0, _ => none
  | fuel + 1, input =>
    match skipWs input with
    | '"' :: r =>
      match spanString r with
      | none => none
      | some (kcs, r2) =>
        match skipWs r2 with
        | ':' :: r3 =>
          match parseVal fuel r3 with
          | none => none
          | some (v, r4) =>
            match skipWs r4 with
            | ',' :: r5 =>
              match parseFields fuel r5 with
              | some (fs, r6) => some ((String.mk kcs, v) :: fs, r6)
              | none => none
            | '\x7d' :: r5 => some ([(String.mk kcs, v)], r5)
            | _ => none
        | _ => none
    | _ => none

end

/-- Python exceptions that the modelled run can raise. -/
inductive PyExc where
  | typeError (msg : String) : PyExc
  | jsonDecodeError (msg : String) : PyExc
  | dockerError (msg : String) : PyExc
  | osError (msg : String) : PyExc
deriving DecidableEq

/-- The message of an exception, as interpolated into the Error log line of
the handler in main. -/
def pyExcMsg : PyExc → String
  | .typeError m => m
  | .jsonDecodeError m => m
  | .dockerError m => m
  | .osError m => m

/-- Model of `json.loads`: parse one value, require only whitespace after it;
any failure models a raised `json.JSONDecodeError`. -/
def json_loads (s : String) : Except PyExc Json :=
  match parseVal (s.length + 1) s.data with
  | some (v, rest) =>
    if skipWs rest = [] then .ok v
    else .error (.jsonDecodeError ("Extra data: " ++ s))
  | none => .error (.jsonDecodeError ("Expecting value: " ++ s))

/-- Python truthiness of a parsed JSON value (None, False, empty containers,
empty strings and zero numbers are falsy; the zero test is over the lexemes
that occur in practice). -/
def jsonTruthy : Json → Bool
  | .null => false
  | .bool b => b
  | .num l => ¬ (l = "0" ∨ l = "-0" ∨ l = "0.0" ∨ l = "-0.0")
  | .str s => s ≠ ""
  | .arr xs => !xs.isEmpty
  | .obj fs => !fs.isEmpty

/-- Dictionary lookup on a JSON object (`dict.get` without default). -/
def jsonLookup (j : Json) (k : String) : Option Json :=
  match j with
  | .obj fs => fs.lookup k
  | _ => none

/-- Rough rendering of an atomic JSON value as Python would print it; the
rendering of nested containers is not modelled (only used in log lines). -/
def jsonAtomStr : Json → String
  | .null => "None"
  | .bool true => "True"
  | .bool false => "False"
  | .num l => l
  | .str s => s
  | .arr _ => "..."
  | .obj _ => "..."

/-- Model of `results.get(key, 'N/A')` as it is used in the log lines. -/
def jsonGetAtomStr (j : Json) (k : String) : String :=
  match jsonLookup j k with
  | some v => jsonAtomStr v
  | none => "N/A"

/-- Result of `container.exec_run`: exit code and decoded output bytes. -/
structure ExecResult where
  exit_code : Int
  output : String
deriving DecidableEq

/-- A docker image, identified by its id. -/
structure Image where
  id : String
deriving DecidableEq

/-- A docker container object, identified by its id. -/
structure Container where
  id : String
deriving DecidableEq

/-- Python truthiness of a docker Container object: the Container class
defines neither a boolean conversion nor a length, so every container object
is truthy by the default object rule. -/
def containerTruthy (_ : Container) : Bool := true

/-- Model of `os.path.join` for the joins performed by this script (the right
operand is always a plain relative component). -/
def os_path_join (a b : String) : String := a ++ "/" ++ b

/-- Model of `os.path.basename`: everything after the last slash. -/
def os_path_basename (p : String) : String :=
  match (p.splitOn "/").getLast? with
  | some s => s
  | none => ""

/-- Rendering of an optional string as Python prints it (None for absent). -/
def optionStr : Option String → String
  | some s => s
  | none => "None"

/-- External events performed by the script, in program order. -/
inductive Event where
  | makedirs (path : String) : Event
  | zipExtract (zipPath destDir : String) : Event
  | writeFile (path content : String) : Event
  | imagesBuild (ctxPath tag : String) : Event
  | containersCreate (imageId : String) : Event
  | containerStart (cid : String) : Event
  | copy2 (src dst : String) : Event
  | containersGet (cid : Option String) : Event
  | putArchive (cid destPath : String) (memberNames : List String) : Event
  | execRun (cid cmd : String) : Event
  | writeFileJson (path : String) : Event
  | printLine (s : String) : Event
deriving DecidableEq

/-- Environment resolving every outside-world interaction of one run: one
field per library call site, keyed by the arguments the script passes. -/
structure Env where
  script_dir : String
  tmpdir : String
  uuid4 : String
  zipExtract : String → String → Except PyExc Unit
  imagesBuild : String → String → Except PyExc Image
  containersCreate : String → Except PyExc Container
  containerStart : String → Except PyExc Unit
  copy2 : String → String → Except PyExc Unit
  containersGet : Option String → Except PyExc Container
  pathExists : String → Bool
  putArchive : String → String → Except PyExc Bool
  execRun : String → String → Except PyExc ExecResult

/-- The dictionary built by create_test_assignment. -/
structure AssignmentData where
  id : String
  name : String
  autograder_image : String
  container_id : Option String
  submission_dir : String
deriving DecidableEq

/-- How a run of main ends: the success branch, the failure branch, or the
generic exception handler. -/
inductive MainResult where
  | success (results : Json) : MainResult
  | failed : MainResult
  | caught (e : PyExc) : MainResult

/-- The Dockerfile text written by build_image: the f-string template in the
source contains no interpolated variables, so it is one fixed string. -/
def dockerfileContent : String :=
  "FROM python:3.11-slim\n\n# Install required packages\nRUN pip install gradescope-utils\n\n# Create the main autograder directory\nRUN mkdir -p /autograder\n\n# Copy extracted files into container\nCOPY autograder/ /autograder/\n\n# Create required directories\nRUN mkdir -p /autograder/submission\nRUN mkdir -p /autograder/source\nRUN mkdir -p /autograder/results\n\n# Copy test files to source directory\nRUN cp /autograder/run_tests.py /autograder/source/\nRUN cp -r /autograder/tests /autograder/source/\n\n# Make run_autograder executable\nRUN chmod +x /autograder/run_autograder\n\nWORKDIR /autograder\n"

/-- Embedding of build_image(zip_path, image_tag, target_dir): extract the
zip into the temporary build context, write the Dockerfile, build the image.
The target_dir parameter is never read. A failed zip extraction or a failed
build raises (there is no handler in the function). -/
def build_image (env : Env) (zip_path image_tag target_dir : String) :
    List Event × Except PyExc Image :=
  let extract_dir := os_path_join env.tmpdir "autograder"
  let ev0 := [Event.makedirs extract_dir, Event.zipExtract zip_path extract_dir]
  match env.zipExtract zip_path extract_dir with
  | .error e => (ev0, .error e)
  | .ok _ =>
    let dockerfile_path := os_path_join env.tmpdir "Dockerfile"
    let ev1 := ev0 ++ [Event.writeFile dockerfile_path dockerfileContent,
                       Event.imagesBuild env.tmpdir image_tag]
    (ev1, env.imagesBuild env.tmpdir image_tag)

/-- Embedding of create_container(image): create the container, start it,
return the container object; failures of either call raise. -/
def create_container (env : Env) (image : Image) :
    List Event × Except PyExc Container :=
  match env.containersCreate image.id with
  | .error e => ([Event.containersCreate image.id], .error e)
  | .ok container =>
    match env.containerStart container.id with
    | .error e =>
      ([Event.containersCreate image.id, Event.containerStart container.id], .error e)
    | .ok _ =>
      ([Event.containersCreate image.id, Event.containerStart container.id], .ok container)

/-- Embedding of create_test_assignment(): build the image for the A1 test
zip, create and start a container, create the submission directory on the
host, copy the sample submission into it, and return the assignment
dictionary. -/
def create_test_assignment (env : Env) :
    List Event × Except PyExc AssignmentData :=
  let assignment_id := env.uuid4
  let assignment_name := "A1"
  let test_zip :=
    os_path_join (os_path_join (os_path_join env.script_dir "assignment-examples") "A1") "A1.zip"
  let target_dir := "/autograder"
  let image_tag := "autograder:" ++ assignment_id
  let b := build_image env test_zip image_tag target_dir
  match b.2 with
  | .error e => (b.1, .error e)
  | .ok image =>
    let c := create_container env image
    match c.2 with
    | .error e => (b.1 ++ c.1, .error e)
    | .ok container =>
      let submission_dir := os_path_join (os_path_join env.script_dir "submissions") assignment_id
      let submission_file_src :=
        os_path_join (os_path_join (os_path_join env.script_dir "assignment-examples") "A1") "calculator.py"
      let submission_file_dst := os_path_join submission_dir "calculator.py"
      let ev := b.1 ++ c.1 ++ [Event.makedirs submission_dir,
                               Event.copy2 submission_file_src submission_file_dst]
      match env.copy2 submission_file_src submission_file_dst with
      | .error e => (ev, .error e)
      | .ok _ =>
        (ev ++ [Event.printLine ("Assignment created: " ++ assignment_id)],
         .ok { id := assignment_id
               name := assignment_name
               autograder_image := image_tag
               container_id := if containerTruthy container then some container.id else none
               submission_dir := submission_dir })

/-- Number of parameters of the definition line
def run_autograder(container, submission_file_path). -/
def run_autograder_paramCount : Nat := 2

/-- Number of positional arguments at the call
run_autograder(container, submission_file, target_dir) inside get_results. -/
def get_results_callArgCount : Nat := 3

/-- Embedding of run_autograder(container, submission_file_path): build the
one-member tar archive of the submission file, put it into the container,
execute the autograder script, and on a zero exit code read and parse the
results file. File contents of the tar member are not tracked, only its
archive name. -/
def run_autograder (env : Env) (container : Container) (submission_file_path : String) :
    List Event × Except PyExc (Option Json) :=
  let memberNames := [os_path_basename submission_file_path]
  let ev0 := [Event.putArchive container.id "/autograder/submission/" memberNames]
  match env.putArchive container.id "/autograder/submission/" with
  | .error e => (ev0, .error e)
  | .ok _ =>
    let ev1 := ev0 ++ [Event.printLine "Running autograder...",
                       Event.execRun container.id "/bin/bash /autograder/run_autograder"]
    match env.execRun container.id "/bin/bash /autograder/run_autograder" with
    | .error e => (ev1, .error e)
    | .ok exec_result =>
      if exec_result.exit_code ≠ 0 then
        (ev1 ++ [Event.printLine ("Autograder execution failed: " ++ exec_result.output)],
         .ok none)
      else
        let ev2 := ev1 ++ [Event.execRun container.id "cat /autograder/results/results.json"]
        match env.execRun container.id "cat /autograder/results/results.json" with
        | .error e => (ev2, .error e)
        | .ok results_result =>
          if results_result.exit_code = 0 then
            match json_loads results_result.output with
            | .error e => (ev2, .error e)
            | .ok j => (ev2, .ok (some j))
          else
            (ev2 ++ [Event.printLine "Failed to retrieve results"], .ok none)

/-- Embedding of get_results(assignment_data): look the container up, check
that the submission file exists on the host, then perform the source call
run_autograder(container, submission_file, target_dir). That call passes
three positional arguments to a function defined with two parameters, so
Python raises a TypeError before the callee body runs; the arity guard below
mirrors exactly that rule. On a truthy result the score is logged and the
results are saved next to the submission. -/
def get_results (env : Env) (assignment_data : AssignmentData) :
    List Event × Except PyExc (Option Json) :=
  let container_id := assignment_data.container_id
  let submission_dir := assignment_data.submission_dir
  let evG := [Event.containersGet container_id]
  match env.containersGet container_id with
  | .error e => (evG, .error e)
  | .ok container =>
    let submission_file := os_path_join submission_dir "calculator.py"
    if env.pathExists submission_file = false then
      (evG ++ [Event.printLine ("Submission file not found: " ++ submission_file)], .ok none)
    else
      let evP := evG ++ [Event.printLine ("Running autograder on: " ++ submission_file)]
      let call :=
        if get_results_callArgCount = run_autograder_paramCount then
          run_autograder env container submission_file
        else
          ([], Except.error (PyExc.typeError
            "run_autograder() takes 2 positional arguments but 3 were given"))
      match call.2 with
      | .error e => (evP ++ call.1, .error e)
      | .ok results =>
        match results with
        | some j =>
          if jsonTruthy j then
            let results_file := os_path_join submission_dir "results.json"
            (evP ++ call.1 ++
              [Event.printLine "✓ Autograder completed successfully!",
               Event.printLine ("✓ Score: " ++ jsonGetAtomStr j "score"),
               Event.writeFileJson results_file,
               Event.printLine ("✓ Results saved to: " ++ results_file)],
             .ok (some j))
          else
            (evP ++ call.1 ++ [Event.printLine "Autograder failed"], .ok none)
        | none =>
          (evP ++ call.1 ++ [Event.printLine "Autograder failed"], .ok none)

/-- Embedding of main(): run create_test_assignment and get_results inside
the one try block; any exception raised below is caught by the generic
handler, which logs it and returns normally. -/
def main (env : Env) : List Event × MainResult :=
  let ev1 := [Event.printLine "=== Testing CodeAssist Submission System ===\n",
              Event.printLine "1. Creating test assignment..."]
  let a := create_test_assignment env
  match a.2 with
  | .error e =>
    (ev1 ++ a.1 ++ [Event.printLine ("Error: " ++ pyExcMsg e)], .caught e)
  | .ok assignment_data =>
    let ev2 := ev1 ++ a.1 ++
      [Event.printLine ("   Assignment ID: " ++ assignment_data.id),
       Event.printLine ("   Container ID: " ++ optionStr assignment_data.container_id),
       Event.printLine ("   Submission dir: " ++ assignment_data.submission_dir ++ "\n"),
       Event.printLine "2. Running autograder..."]
    let g := get_results env assignment_data
    match g.2 with
    | .error e =>
      (ev2 ++ g.1 ++ [Event.printLine ("Error: " ++ pyExcMsg e)], .caught e)
    | .ok results =>
      match results with
      | some j =>
        if jsonTruthy j then
          (ev2 ++ g.1 ++
            [Event.printLine "🎉 SUCCESS! Container is working perfectly!",
             Event.printLine ("📊 Final Score: " ++ jsonGetAtomStr j "score"),
             Event.printLine ("⏱️  Execution Time: " ++ jsonGetAtomStr j "execution_time" ++ "s"),
             Event.printLine ("📁 Results saved to: " ++ assignment_data.submission_dir ++ "/results.json"),
             Event.printLine "\n✅ Your container reuse system is ready!"],
           .success j)
        else
          (ev2 ++ g.1 ++ [Event.printLine "\n❌ FAILED",
            Event.printLine "Autograder execution failed. Check the error messages above."],
           .failed)
      | none =>
        (ev2 ++ g.1 ++ [Event.printLine "\n❌ FAILED",
          Event.printLine "Autograder execution failed. Check the error messages above."],
         .failed)

/-- Number of events in a trace satisfying a predicate. -/
def countEv (p : Event → Bool) (tr : List Event) : Nat := (tr.filter p).length

/-- Event is an images.build call. -/
def isImagesBuild : Event → Bool
  | .imagesBuild _ _ => true
  | _ => false

/-- Event is a containers.create call. -/
def isContainersCreate : Event → Bool
  | .containersCreate _ => true
  | _ => false

/-- Event is a container.start call. -/
def isContainerStart : Event → Bool
  | .containerStart _ => true
  | _ => false

/-- Event is a put_archive call. -/
def isPutArchive : Event → Bool
  | .putArchive _ _ _ => true
  | _ => false

/-- Event is an exec_run call. -/
def isAnyExecRun : Event → Bool
  | .execRun _ _ => true
  | _ => false

/-- The commands of the exec_run events of a trace, in order. -/
def execCommands (tr : List Event) : List String :=
  tr.filterMap (fun e =>
    match e with
    | .execRun _ cmd => some cmd
    | _ => none)

/-- A results.json content on which json.loads succeeds. -/
def okJsonOutput : String := "\x7b\"score\": 10\x7d"

/-- An environment in which every library call succeeds and the submission
file exists; the cat of the results file yields valid JSON. -/
def okEnv : Env where
  script_dir := "/app"
  tmpdir := "/tmp/build"
  uuid4 := "u1"
  zipExtract := fun _ _ => .ok ()
  imagesBuild := fun _ tag => .ok { id := tag }
  containersCreate := fun _ => .ok { id := "c1" }
  containerStart := fun _ => .ok ()
  copy2 := fun _ _ => .ok ()
  containersGet := fun _ => .ok { id := "c1" }
  pathExists := fun _ => true
  putArchive := fun _ _ => .ok true
  execRun := fun _ cmd =>
    .ok { exit_code := 0,
          output := if cmd = "cat /autograder/results/results.json" then okJsonOutput else "" }

/-- Like okEnv, but the cat of the results file returns bytes that are not
valid JSON (both exec calls still exit with code 0). -/
def badJsonEnv : Env :=
  { okEnv with
    execRun := fun _ cmd =>
      .ok { exit_code := 0,
            output := if cmd = "cat /autograder/results/results.json" then "not json" else "" } }

/-- Like okEnv, but the docker image build raises. -/
def buildFailEnv : Env :=
  { okEnv with imagesBuild := fun _ _ => .error (.dockerError "build failed") }

/-- The assignment dictionary produced by create_test_assignment in okEnv. -/
def dataOk : AssignmentData where
  id := "u1"
  name := "A1"
  autograder_image := "autograder:u1"
  container_id := some "c1"
  submission_dir := "/app/submissions/u1"

theorem countEv_nil (p : Event → Bool) : countEv p [] = 0 := rfl

theorem countEv_cons (p : Event → Bool) (e : Event) (l : List Event) :
    countEv p (e :: l) = (if p e then 1 else 0) + countEv p l := by
  simp only [countEv, List.filter_cons]
  split <;> simp [Nat.add_comm]

theorem countEv_append (p : Event → Bool) (a b : List Event) :
    countEv p (a ++ b) = countEv p a + countEv p b := by
  simp [countEv, List.filter_append]

theorem execCommands_nil : execCommands [] = [] := rfl

theorem execCommands_append (a b : List Event) :
    execCommands (a ++ b) = execCommands a ++ execCommands b := by
  simp [execCommands, List.filterMap_append]

/-- Claim C9: build_image is independent of its target_dir parameter: for
every environment, zip path and image tag and any two values of target_dir,
it performs the same events (same Dockerfile write, same build call) and
returns the same result, because the parameter is never read. -/
theorem build_image_independent_of_target_dir (env : Env)
    (zip_path image_tag d d' : String) :
    build_image env zip_path image_tag d = build_image env zip_path image_tag d' := rfl

/-- Claim C4: the Dockerfile that build_image writes into the build context
is a static fixed text: any file-write event a run of build_image performs
has exactly the constant content dockerfileContent, for every value of
zip_path, image_tag and target_dir. -/
theorem dockerfile_text_is_static (env : Env)
    (zip_path image_tag target_dir p c : String)
    (h : Event.writeFile p c ∈ (build_image env zip_path image_tag target_dir).1) :
    c = dockerfileContent := by
  simp only [build_image] at h
  cases hz : env.zipExtract zip_path (os_path_join env.tmpdir "autograder") <;>
    rw [hz] at h <;> simp at h
  exact h.2

/-- Witness for C4: a concrete run in which build_image does write a
Dockerfile, and the conclusion of the theorem at that input. -/
theorem dockerfile_text_is_static_witness :
    Event.writeFile "/tmp/build/Dockerfile" dockerfileContent ∈
      (build_image okEnv "a.zip" "autograder:u1" "/autograder").1
    ∧ dockerfileContent = dockerfileContent := by
  have hm : Event.writeFile "/tmp/build/Dockerfile" dockerfileContent ∈
      (build_image okEnv "a.zip" "autograder:u1" "/autograder").1 := by
    simp [build_image, okEnv, os_path_join]
  exact ⟨hm, dockerfile_text_is_static okEnv "a.zip" "autograder:u1" "/autograder"
    "/tmp/build/Dockerfile" dockerfileContent hm⟩

/-- Claim C6: for every submission_file_path, the archive run_autograder
sends via put_archive has exactly one member, named the basename of the
path, delivered to the container path /autograder/submission/, and this is
the only put_archive event of the run. -/
theorem put_archive_single_member (env : Env) (c : Container) (p : String) :
    (run_autograder env c p).1.head? =
      some (Event.putArchive c.id "/autograder/submission/" [os_path_basename p])
    ∧ countEv isPutArchive (run_autograder env c p).1 = 1 := by
  simp only [run_autograder]
  repeat' split
  all_goals simp [countEv_append, countEv_cons, countEv_nil, isPutArchive]

/-- Claim C10: every dictionary returned by create_test_assignment has a
non-None container_id (the falsy fallback is unreachable: a container
object is always truthy) and an autograder_image equal to the string
autograder: followed by its id field. -/
theorem assignment_data_invariant (env : Env) (data : AssignmentData)
    (h : (create_test_assignment env).2 = .ok data) :
    data.container_id ≠ none
    ∧ data.autograder_image = "autograder:" ++ data.id := by
  simp only [create_test_assignment] at h
  repeat' split at h
  all_goals simp_all [containerTruthy]
  subst h
  simp [containerTruthy]

/-- Witness for C10: the concrete dictionary returned in okEnv, and the
conclusion of the theorem at that input. -/
theorem assignment_data_invariant_witness :
    (create_test_assignment okEnv).2 = .ok dataOk
    ∧ (dataOk.container_id ≠ none
       ∧ dataOk.autograder_image = "autograder:" ++ dataOk.id) :=
  ⟨rfl, assignment_data_invariant okEnv dataOk rfl⟩

/-- Claim C1 concerns the intended single-shot pipeline. The code cannot
perform it: in a run where every library call succeeds and the submission
file exists, main ends in its generic handler with the TypeError raised at
the three-argument call of run_autograder, after exactly one image build,
one container create and one container start, and with no file ever copied
into the container, no script executed and no JSON parsed. -/
theorem main_flow_never_reaches_grading :
    (main okEnv).2 =
      .caught (.typeError "run_autograder() takes 2 positional arguments but 3 were given")
    ∧ countEv isImagesBuild (main okEnv).1 = 1
    ∧ countEv isContainersCreate (main okEnv).1 = 1
    ∧ countEv isContainerStart (main okEnv).1 = 1
    ∧ countEv isPutArchive (main okEnv).1 = 0
    ∧ execCommands (main okEnv).1 = [] :=
  ⟨rfl, rfl, rfl, rfl, rfl, rfl⟩

/-- Claim C2: for every environment and assignment_data whose submission
file exists on the host (and whose container lookup succeeds), get_results
raises a TypeError before any container command is executed, because the
call site passes three positional arguments while run_autograder is defined
with exactly two parameters; the error is only caught by the generic
handler in main. -/
theorem get_results_raises_arity_typeerror (env : Env) (data : AssignmentData)
    (cid : String) (cont : Container)
    (h1 : data.container_id = some cid)
    (h2 : env.containersGet (some cid) = .ok cont)
    (h3 : env.pathExists (os_path_join data.submission_dir "calculator.py") = true) :
    get_results_callArgCount = 3
    ∧ run_autograder_paramCount = 2
    ∧ (get_results env data).2 =
        .error (.typeError "run_autograder() takes 2 positional arguments but 3 were given")
    ∧ countEv isPutArchive (get_results env data).1 = 0
    ∧ execCommands (get_results env data).1 = []
    ∧ ((create_test_assignment env).2 = .ok data →
        (main env).2 =
          .caught (.typeError "run_autograder() takes 2 positional arguments but 3 were given")) := by
  have hg : get_results env data =
      ([Event.containersGet (some cid),
        Event.printLine ("Running autograder on: " ++
          os_path_join data.submission_dir "calculator.py")],
       .error (.typeError "run_autograder() takes 2 positional arguments but 3 were given")) := by
    simp [get_results, h1, h2, h3, get_results_callArgCount, run_autograder_paramCount]
  refine ⟨rfl, rfl, by rw [hg], by rw [hg]; rfl, by rw [hg]; rfl, ?_⟩
  intro hA
  simp only [main, hA, hg]

/-- Witness for C2: the hypotheses hold in okEnv for the dictionary that
create_test_assignment produces there, and the conclusions of the theorem
at that input, with the main conjunct discharged. -/
theorem get_results_raises_arity_typeerror_witness :
    dataOk.container_id = some "c1"
    ∧ (get_results okEnv dataOk).2 =
        .error (.typeError "run_autograder() takes 2 positional arguments but 3 were given")
    ∧ countEv isPutArchive (get_results okEnv dataOk).1 = 0
    ∧ execCommands (get_results okEnv dataOk).1 = []
    ∧ (main okEnv).2 =
        .caught (.typeError "run_autograder() takes 2 positional arguments but 3 were given") := by
  have h := get_results_raises_arity_typeerror okEnv dataOk "c1" ⟨"c1"⟩ rfl rfl rfl
  exact ⟨rfl, h.2.2.1, h.2.2.2.1, h.2.2.2.2.1, h.2.2.2.2.2 rfl⟩

/-- Counterexample for C3 as stated: a run of run_autograder in which both
exec calls return exit code 0, yet the function does not return the
JSON-parsed results: the output bytes are not valid JSON, so json.loads
raises instead. -/
theorem run_autograder_bad_json_counterexample :
    badJsonEnv.execRun "c1" "/bin/bash /autograder/run_autograder" = .ok ⟨0, ""⟩
    ∧ badJsonEnv.execRun "c1" "cat /autograder/results/results.json" = .ok ⟨0, "not json"⟩
    ∧ (run_autograder badJsonEnv ⟨"c1"⟩ "calculator.py").2 =
        .error (.jsonDecodeError "Expecting value: not json") :=
  ⟨rfl, rfl, rfl⟩

/-- Claim C3 (amended): when the exec library calls themselves succeed,
run_autograder returns None exactly on a nonzero exit code of either exec;
when both exit codes are zero its outcome is exactly the outcome of
json.loads on the output bytes: the parsed results on valid JSON, a raised
decode error otherwise. -/
theorem run_autograder_exit_code_discrimination (env : Env) (c : Container)
    (p : String) (b : Bool) (r1 r2 : ExecResult)
    (hput : env.putArchive c.id "/autograder/submission/" = .ok b)
    (h1 : env.execRun c.id "/bin/bash /autograder/run_autograder" = .ok r1)
    (h2 : env.execRun c.id "cat /autograder/results/results.json" = .ok r2) :
    (run_autograder env c p).2 =
      if r1.exit_code ≠ 0 then .ok none
      else if r2.exit_code = 0 then (json_loads r2.output).map some
      else .ok none := by
  simp only [run_autograder, hput, h1, h2]
  by_cases hx1 : r1.exit_code ≠ 0
  · simp [hx1]
  · by_cases hx2 : r2.exit_code = 0
    · cases hj : json_loads r2.output <;> simp [hx1, hx2, hj, Except.map]
    · simp [hx1, hx2]

/-- Witness for C3 (amended): concrete run with both exit codes zero and
valid JSON output. -/
theorem run_autograder_exit_code_discrimination_witness :
    (run_autograder okEnv ⟨"c1"⟩ "calculator.py").2 =
      if (ExecResult.mk 0 "").exit_code ≠ 0 then .ok none
      else if (ExecResult.mk 0 okJsonOutput).exit_code = 0 then
        (json_loads okJsonOutput).map some
      else .ok none :=
  run_autograder_exit_code_discrimination okEnv ⟨"c1"⟩ "calculator.py" true
    ⟨0, ""⟩ ⟨0, okJsonOutput⟩ rfl rfl rfl

/-- Counterexample for C7 as stated: in the environment of the claimed
scenario (both exec calls would succeed with exit code 0 and the result
bytes are not valid JSON), no decode error ever propagates out of
get_results: get_results raises the arity TypeError before the body of
run_autograder can run. -/
theorem json_error_blocked_by_typeerror :
    (get_results badJsonEnv dataOk).2 =
      .error (.typeError "run_autograder() takes 2 positional arguments but 3 were given") :=
  rfl

/-- Claim C7 (amended): there is no recovery for a malformed result file:
if both exec calls succeed with exit code 0 and the result bytes are not
valid JSON, json.loads raises and the exception propagates uncaught out of
run_autograder; and every exception that get_results raises below main is
caught only by the generic handler there. In the program as written,
get_results never reaches the body of run_autograder (the arity TypeError
intervenes), so the exception main catches is that TypeError. -/
theorem malformed_json_uncaught_in_run_autograder (env : Env) (c : Container)
    (p : String) (b : Bool) (r1 r2 : ExecResult) (e : PyExc)
    (data : AssignmentData) (e' : PyExc)
    (hput : env.putArchive c.id "/autograder/submission/" = .ok b)
    (h1 : env.execRun c.id "/bin/bash /autograder/run_autograder" = .ok r1)
    (hx1 : r1.exit_code = 0)
    (h2 : env.execRun c.id "cat /autograder/results/results.json" = .ok r2)
    (hx2 : r2.exit_code = 0)
    (hj : json_loads r2.output = .error e)
    (hA : (create_test_assignment env).2 = .ok data)
    (hG : (get_results env data).2 = .error e') :
    (run_autograder env c p).2 = .error e
    ∧ (main env).2 = .caught e' := by
  constructor
  · simp [run_autograder, hput, h1, hx1, h2, hx2, hj]
  · simp only [main, hA]
    cases hg : get_results env data with
    | mk tr out =>
      rw [hg] at hG
      simp only at hG
      rw [hG]

/-- Witness for C7 (amended): the concrete bad-JSON environment; the decode
error propagates out of a direct two-argument run of run_autograder, and
main ends in its handler with the TypeError that get_results raised. -/
theorem malformed_json_uncaught_witness :
    (run_autograder badJsonEnv ⟨"c1"⟩ "calculator.py").2 =
      .error (.jsonDecodeError "Expecting value: not json")
    ∧ (main badJsonEnv).2 =
        .caught (.typeError "run_autograder() takes 2 positional arguments but 3 were given") :=
  malformed_json_uncaught_in_run_autograder badJsonEnv ⟨"c1"⟩ "calculator.py"
    true ⟨0, ""⟩ ⟨0, "not json"⟩ (.jsonDecodeError "Expecting value: not json")
    dataOk (.typeError "run_autograder() takes 2 positional arguments but 3 were given")
    rfl rfl rfl rfl rfl rfl rfl rfl

theorem execCommands_eq_nil (tr : List Event)
    (h : countEv isAnyExecRun tr = 0) : execCommands tr = [] := by
  induction tr with
  | nil => rfl
  | cons e t ih =>
    rw [countEv_cons] at h
    cases e <;> simp_all [isAnyExecRun, execCommands, List.filterMap_cons]

theorem build_image_trace_ops (env : Env) (z t d : String) :
    countEv isImagesBuild (build_image env z t d).1 ≤ 1
    ∧ countEv isContainersCreate (build_image env z t d).1 = 0
    ∧ countEv isContainerStart (build_image env z t d).1 = 0
    ∧ countEv isPutArchive (build_image env z t d).1 = 0
    ∧ countEv isAnyExecRun (build_image env z t d).1 = 0 := by
  simp only [build_image]
  cases hz : env.zipExtract z (os_path_join env.tmpdir "autograder") <;>
    simp [hz, countEv_cons, countEv_nil,
      isImagesBuild, isContainersCreate, isContainerStart, isPutArchive, isAnyExecRun]

theorem create_container_trace_ops (env : Env) (img : Image) :
    countEv isImagesBuild (create_container env img).1 = 0
    ∧ countEv isContainersCreate (create_container env img).1 ≤ 1
    ∧ countEv isContainerStart (create_container env img).1 ≤ 1
    ∧ countEv isPutArchive (create_container env img).1 = 0
    ∧ countEv isAnyExecRun (create_container env img).1 = 0 := by
  simp only [create_container]
  cases h1 : env.containersCreate img.id
  · simp [countEv_cons, countEv_nil,
      isImagesBuild, isContainersCreate, isContainerStart, isPutArchive, isAnyExecRun]
  · rename_i cont
    cases h2 : env.containerStart cont.id <;>
      simp [h2, countEv_cons, countEv_nil,
        isImagesBuild, isContainersCreate, isContainerStart, isPutArchive, isAnyExecRun]

theorem create_test_assignment_trace_ops (env : Env) :
    countEv isImagesBuild (create_test_assignment env).1 ≤ 1
    ∧ countEv isContainersCreate (create_test_assignment env).1 ≤ 1
    ∧ countEv isContainerStart (create_test_assignment env).1 ≤ 1
    ∧ countEv isPutArchive (create_test_assignment env).1 = 0
    ∧ countEv isAnyExecRun (create_test_assignment env).1 = 0 := by
  obtain ⟨b1, b2, b3, b4, b5⟩ := build_image_trace_ops env
    (os_path_join (os_path_join (os_path_join env.script_dir "assignment-examples") "A1") "A1.zip")
    ("autograder:" ++ env.uuid4) "/autograder"
  simp only [create_test_assignment]
  split
  · exact ⟨b1, by simp [b2], by simp [b3], by simp [b4], by simp [b5]⟩
  · rename_i image heq
    obtain ⟨c1, c2, c3, c4, c5⟩ := create_container_trace_ops env image
    split
    · refine ⟨?_, ?_, ?_, ?_, ?_⟩ <;>
        simp [countEv_append, b2, b3, b4, b5, c1, c4, c5] <;> omega
    · split
      · refine ⟨?_, ?_, ?_, ?_, ?_⟩ <;>
          simp [countEv_append, countEv_cons, countEv_nil, b2, b3, b4, b5, c1, c4, c5,
            isImagesBuild, isContainersCreate, isContainerStart, isPutArchive, isAnyExecRun] <;>
          omega
      · refine ⟨?_, ?_, ?_, ?_, ?_⟩ <;>
          simp [countEv_append, countEv_cons, countEv_nil, b2, b3, b4, b5, c1, c4, c5,
            isImagesBuild, isContainersCreate, isContainerStart, isPutArchive, isAnyExecRun] <;>
          omega

theorem get_results_trace_ops (env : Env) (data : AssignmentData) :
    countEv isImagesBuild (get_results env data).1 = 0
    ∧ countEv isContainersCreate (get_results env data).1 = 0
    ∧ countEv isContainerStart (get_results env data).1 = 0
    ∧ countEv isPutArchive (get_results env data).1 = 0
    ∧ countEv isAnyExecRun (get_results env data).1 = 0 := by
  simp only [get_results, get_results_callArgCount, run_autograder_paramCount]
  split
  · simp [countEv_cons, countEv_nil,
      isImagesBuild, isContainersCreate, isContainerStart, isPutArchive, isAnyExecRun]
  · split
    · simp [countEv_cons, countEv_nil,
        isImagesBuild, isContainersCreate, isContainerStart, isPutArchive, isAnyExecRun]
    · rw [if_neg (by decide)]
      simp [countEv_append, countEv_cons, countEv_nil,
        isImagesBuild, isContainersCreate, isContainerStart, isPutArchive, isAnyExecRun]

theorem main_trace_ops (env : Env) :
    countEv isImagesBuild (main env).1 ≤ 1
    ∧ countEv isContainersCreate (main env).1 ≤ 1
    ∧ countEv isContainerStart (main env).1 ≤ 1
    ∧ countEv isPutArchive (main env).1 ≤ 1
    ∧ countEv isAnyExecRun (main env).1 = 0 := by
  obtain ⟨a1, a2, a3, a4, a5⟩ := create_test_assignment_trace_ops env
  simp only [main]
  split
  · refine ⟨?_, ?_, ?_, ?_, ?_⟩ <;>
      simp [countEv_append, countEv_cons, countEv_nil, a2, a3, a4, a5,
        isImagesBuild, isContainersCreate, isContainerStart, isPutArchive, isAnyExecRun] <;>
      omega
  · rename_i data heq
    obtain ⟨g1, g2, g3, g4, g5⟩ := get_results_trace_ops env data
    repeat' split
    all_goals refine ⟨?_, ?_, ?_, ?_, ?_⟩
    all_goals
      simp [countEv_append, countEv_cons, countEv_nil, a2, a3, a4, a5, g1, g2, g3, g4, g5,
        isImagesBuild, isContainersCreate, isContainerStart, isPutArchive, isAnyExecRun]
    all_goals omega

theorem run_autograder_trace_ops (env : Env) (c : Container) (p : String) :
    countEv isPutArchive (run_autograder env c p).1 ≤ 1
    ∧ (execCommands (run_autograder env c p).1).Nodup := by
  simp only [run_autograder]
  repeat' split
  all_goals
    simp [countEv_append, countEv_cons, countEv_nil, execCommands,
      List.filterMap_cons, isPutArchive]

/-- Counterexample for C5 as stated: a failure of the images.build call does
not make build_image return None; the function has no handler and the
exception propagates out of it. -/
theorem build_failure_raises_not_none :
    (build_image buildFailEnv "a.zip" "autograder:u1" "/autograder").2 =
      .error (.dockerError "build failed") := rfl

/-- Claim C5 (amended): no container-runtime operation is ever retried: in
any run of main, images.build, containers.create, container.start and
put_archive each occur at most once and the exec commands issued are
pairwise distinct (in fact none is ever reached in main); in any direct run
of run_autograder, put_archive occurs at most once and no exec_run command
is issued twice. Detected failures are not re-attempted; failures raised by
the library calls themselves propagate as exceptions rather than a None
return. -/
theorem container_ops_at_most_once (env : Env) (c : Container) (p : String) :
    countEv isImagesBuild (main env).1 ≤ 1
    ∧ countEv isContainersCreate (main env).1 ≤ 1
    ∧ countEv isContainerStart (main env).1 ≤ 1
    ∧ countEv isPutArchive (main env).1 ≤ 1
    ∧ (execCommands (main env).1).Nodup
    ∧ countEv isPutArchive (run_autograder env c p).1 ≤ 1
    ∧ (execCommands (run_autograder env c p).1).Nodup := by
  obtain ⟨m1, m2, m3, m4, m5⟩ := main_trace_ops env
  obtain ⟨r1, r2⟩ := run_autograder_trace_ops env c p
  exact ⟨m1, m2, m3, m4, by rw [execCommands_eq_nil _ m5]; exact List.nodup_nil, r1, r2⟩

end CreateAssignment
